import Mathlib

/-!
Shallow embedding of the Social_NFT single-page application
(src/app/page.tsx and the feed page src/unnamed/part_000).

The browser session storage is modelled as an optional raw value: absent,
a well-formed JSON array of records, or malformed JSON (carrying the parse
error message that JSON.parse would throw).  The two Date.now() samples
taken while building a record are explicit parameters, as are the pinning
service response and the wallet account list, so every operation is a pure
function whose network activity is recorded in its result.
-/

deriving instance DecidableEq for Except

namespace SocialNFT

/-- The StoredImage interface (page.tsx lines 6-11): id is a string,
image holds the content reference URI, timestamp is epoch milliseconds. -/
structure StoredImage where
  id : String
  image : String
  description : String
  timestamp : Nat
deriving DecidableEq, Repr

/-- Raw content of the session-storage key "stored_images": either a
well-formed JSON array of records or malformed text whose parse raises
the given error message. -/
inductive RawValue where
  | list (images : List StoredImage)
  | malformed (msg : String)
deriving DecidableEq, Repr

/-- Session storage for the single key: absent or a raw value. -/
abbrev Storage := Option RawValue

/-- JSON.parse on the stored string: yields the record list or throws
the parse error. -/
def parseStored : RawValue → Except String (List StoredImage)
  | RawValue.list images => Except.ok images
  | RawValue.malformed msg => Except.error msg

/-- The storage step of storeImage (page.tsx lines 91-94): read the
current list (empty when the key is absent), prepend the new record and
write the whole list back.  A JSON.parse failure is an exception, which
the surrounding try/catch of storeImage receives. -/
def appendRecord (st : Storage) (r : StoredImage) : Except String Storage :=
  match st with
  | none => Except.ok (some (RawValue.list [r]))
  | some rv =>
    match parseStored rv with
    | Except.ok images => Except.ok (some (RawValue.list (r :: images)))
    | Except.error e => Except.error e

/-- A whole sequence of appends, stopping at the first failure. -/
def appendAll (st : Storage) : List StoredImage → Except String Storage
  | [] => Except.ok st
  | r :: rs =>
    match appendRecord st r with
    | Except.ok st2 => appendAll st2 rs
    | Except.error e => Except.error e

/-- The sort applied by the feed page (part_000 lines 73-75):
a stable sort with comparator b.timestamp - a.timestamp, i.e. newest
first. -/
def sortByTimestampDesc (l : List StoredImage) : List StoredImage :=
  l.mergeSort (fun a b => b.timestamp ≤ a.timestamp)

/-- loadImages of the feed page (part_000 lines 67-86): an absent key
leaves the list empty, a parse failure is caught and leaves the list
empty, otherwise the parsed list is sorted newest first. -/
def loadImages (st : Storage) : List StoredImage :=
  match st with
  | none => []
  | some rv =>
    match parseStored rv with
    | Except.ok images => sortByTimestampDesc images
    | Except.error _ => []

/-- JavaScript truthiness of an optional string environment value or
JSON field: missing and empty are falsy. -/
def truthy : Option String → Bool
  | none => false
  | some s => !(s == "")

/-- The pinning service response as observed by uploadImageToPinata:
HTTP ok flag, status code, the error body detail field when present,
and the IpfsHash field when present. -/
structure PinataResponse where
  ok : Bool
  status : Nat
  errorDetails : Option String
  ipfsHash : Option String
deriving DecidableEq, Repr

/-- Result of uploadImageToPinata: how many fetches were issued and the
returned reference or the thrown error message. -/
structure UploadResult where
  fetches : Nat
  result : Except String String
deriving DecidableEq, Repr

/-- uploadImageToPinata (page.tsx lines 21-69): without a configured
credential it throws before any fetch; otherwise one fetch is issued and
a non-ok response, a missing hash, or success are handled in turn. -/
def uploadImageToPinata (jwt : Option String) (resp : PinataResponse) : UploadResult :=
  if !(truthy jwt) then
    { fetches := 0
      result := Except.error
        "Pinata JWT not configured. Add NEXT_PUBLIC_PINATA_JWT to .env.local" }
  else if !resp.ok then
    { fetches := 1
      result := Except.error
        ("Pinata upload failed (" ++ toString resp.status ++ "): " ++
          resp.errorDetails.getD "Unknown error") }
  else if !(truthy resp.ipfsHash) then
    { fetches := 1, result := Except.error "No IPFS hash returned from Pinata" }
  else
    { fetches := 1, result := Except.ok ("ipfs://" ++ resp.ipfsHash.getD "") }

/-- The JavaScript String.prototype.trim call: whitespace stripped from
both ends.  Stated over the character list so that it evaluates by
kernel reduction. -/
def jsTrim (s : String) : String :=
  ⟨((s.data.dropWhile Char.isWhitespace).reverse.dropWhile Char.isWhitespace).reverse⟩

/-- The record built by storeImage (page.tsx lines 84-89): t1 is the
Date.now() sample rendered into id, t2 the later Date.now() sample
stored as timestamp. -/
def mkStoredImage (t1 t2 : Nat) (url desc : String) : StoredImage :=
  { id := toString t1, image := url, description := desc, timestamp := t2 }

/-- Result of one storeImage run: the storage afterwards, the final
status text, and how many upload fetches were issued. -/
structure StoreOutcome where
  storage : Storage
  status : String
  fetches : Nat
deriving DecidableEq, Repr

/-- storeImage (page.tsx lines 71-110): a missing file or blank
description only updates the status; otherwise the upload runs, the new
record is built from the two Date.now() samples and prepended to the
stored list; any thrown error ends in a Storage failed status. -/
def storeImage (imageFile : Option String) (description : String)
    (jwt : Option String) (resp : PinataResponse) (t1 t2 : Nat)
    (st : Storage) : StoreOutcome :=
  if imageFile.isNone || jsTrim description == "" then
    { storage := st, status := "Please select an image and add a description", fetches := 0 }
  else
    let up := uploadImageToPinata jwt resp
    match up.result with
    | Except.error msg =>
      { storage := st, status := "Storage failed: " ++ msg, fetches := up.fetches }
    | Except.ok url =>
      let newImage := mkStoredImage t1 t2 url description
      match appendRecord st newImage with
      | Except.ok st2 =>
        { storage := st2, status := "✓ Image stored permanently on IPFS!", fetches := up.fetches }
      | Except.error e =>
        { storage := st, status := "Storage failed: " ++ e, fetches := up.fetches }

/-- Whether the pattern list occurs at the start of the other list. -/
def listPrefixOf : List Char → List Char → Bool
  | [], _ => true
  | _ :: _, [] => false
  | a :: as, b :: bs => a == b && listPrefixOf as bs

/-- Whether the pattern occurs anywhere in the list: the semantics of
the JavaScript String.prototype.includes call. -/
def listContains (pat : List Char) : List Char → Bool
  | [] => listPrefixOf pat []
  | c :: t => listPrefixOf pat (c :: t) || listContains pat t

/-- JavaScript s.includes(pat) on strings. -/
def strIncludes (s pat : String) : Bool :=
  listContains pat.data s.data

/-- The JavaScript toLowerCase call on the basic latin range, character
by character.  Stated over the character list so that it evaluates by
kernel reduction. -/
def jsToLower (s : String) : String :=
  ⟨s.data.map Char.toLower⟩

/-- The filter predicate of filteredImages (part_000 lines 228-232):
an empty search term keeps everything, otherwise a case-insensitive
substring test on the description. -/
def matchesSearch (searchTerm : String) (image : StoredImage) : Bool :=
  if searchTerm == "" then true
  else strIncludes (jsToLower image.description) (jsToLower searchTerm)

/-- filteredImages (part_000 lines 228-232). -/
def filteredImages (searchTerm : String) (images : List StoredImage) : List StoredImage :=
  images.filter (matchesSearch searchTerm)

/-- The NFT contract address constant of the feed page (part_000
line 16). -/
def NFT_CONTRACT_ADDRESS : String := "0x54396910e3a670a9C4F75d5314192EA897491C3c"

/-- The chain id of the viem baseSepolia chain descriptor used by the
feed page (84532). -/
def baseSepoliaId : Nat := 84532

/-- One call object of a wallet_sendCalls payload.  The JavaScript
field named to is rendered toAddr here because to is a reserved word in
Lean. -/
structure CallObj where
  toAddr : String
  data : String
  value : String
deriving DecidableEq, Repr

/-- The wallet_sendCalls payload built by mintNFT (part_000 lines
161-178).  The JavaScript field named from is rendered fromAddr here
because from is a reserved word in Lean. -/
structure SendCallsPayload where
  version : String
  atomicRequired : Bool
  chainId : String
  fromAddr : String
  calls : List CallObj
deriving DecidableEq, Repr

/-- A request issued through the wallet provider. -/
inductive RpcRequest where
  | walletConnect
  | ethRequestAccounts
  | ethAccounts
  | walletSendCalls (payload : SendCallsPayload)
deriving DecidableEq, Repr

/-- The wallet state mintNFT reads: whether the provider handle exists
and the sub-account address recorded at connect time (empty string when
not connected, matching the initial useState value). -/
structure WalletState where
  provider : Bool
  subAccountAddress : String
deriving DecidableEq, Repr

/-- The error classification of the mintNFT catch block (part_000
lines 197-209). -/
def classifyMintError (msg : String) : String :=
  if strIncludes msg "no matching signer" then "Sub-account not ready. Please reconnect wallet."
  else if strIncludes msg "insufficient" then "Insufficient funds for gas"
  else if strIncludes msg "rejected" || strIncludes msg "denied" then "Transaction rejected"
  else msg.take 50

/-- Result of one mintNFT run: the provider requests issued in order and
the final per-image status text. -/
structure MintResult where
  requests : List RpcRequest
  status : String
deriving DecidableEq, Repr

/-- The hex chain id string built by mintNFT (part_000 line 167). -/
def chainIdHex : String := "0x" ++ (Nat.toDigits 16 baseSepoliaId).asString

/-- mintNFT (part_000 lines 129-226).  The provider response to
eth_accounts and the viem encodeFunctionData encoder (mintNFT ABI
applied to one string argument) are oracles passed in as arguments.
Without a provider or sub-account address it stops with no request;
otherwise it issues eth_accounts, throws when the first account is not
the sub-account (the error landing in the catch classifier), and
otherwise issues exactly one wallet_sendCalls with the encoded call. -/
def mintNFT (w : WalletState) (enc : String → String)
    (accounts : List String) (image : StoredImage) : MintResult :=
  if !w.provider || w.subAccountAddress == "" then
    { requests := [], status := "Please connect wallet first" }
  else if accounts.head? != some w.subAccountAddress then
    { requests := [RpcRequest.ethAccounts]
      status := "❌ " ++
        classifyMintError "Sub-account not properly initialized. Please reconnect." }
  else
    let mintData := enc image.image
    let payload : SendCallsPayload :=
      { version := "2.0"
        atomicRequired := true
        chainId := chainIdHex
        fromAddr := w.subAccountAddress
        calls := [{ toAddr := NFT_CONTRACT_ADDRESS, data := mintData, value := "0x0" }] }
    { requests := [RpcRequest.ethAccounts, RpcRequest.walletSendCalls payload]
      status := "✓ NFT Minted Successfully! 🎉" }

/-! Sample data used by witnesses and counterexamples. -/

/-- A sample stored record. -/
def recA : StoredImage :=
  { id := "1", image := "ipfs://QmA", description := "alpha cat", timestamp := 1 }

/-- A second sample stored record, newer than recA. -/
def recB : StoredImage :=
  { id := "5", image := "ipfs://QmB", description := "beta dog", timestamp := 5 }

/-- A successful pinning response carrying hash QmA. -/
def respA : PinataResponse :=
  { ok := true, status := 200, errorDetails := none, ipfsHash := some "QmA" }

/-- A successful pinning response carrying hash QmB. -/
def respB : PinataResponse :=
  { ok := true, status := 200, errorDetails := none, ipfsHash := some "QmB" }

/-! Theorems settling the claims. -/

/-- C3: with no pinning credential configured, the upload fails with the
configuration-error message and issues no fetch to the pinning
endpoint. -/
theorem uploadWithoutCredentialFailsEarlyC3 (jwt : Option String)
    (resp : PinataResponse) (h : truthy jwt = false) :
    (uploadImageToPinata jwt resp).fetches = 0 ∧
    (uploadImageToPinata jwt resp).result =
      Except.error "Pinata JWT not configured. Add NEXT_PUBLIC_PINATA_JWT to .env.local" := by
  simp [uploadImageToPinata, h]

/-- C3 witness: a missing credential at a concrete response. -/
theorem uploadWithoutCredentialFailsEarlyC3_witness :
    (uploadImageToPinata none respA).fetches = 0 ∧
    (uploadImageToPinata none respA).result =
      Except.error "Pinata JWT not configured. Add NEXT_PUBLIC_PINATA_JWT to .env.local" :=
  uploadWithoutCredentialFailsEarlyC3 none respA rfl

/-- C4: a mint attempt before a wallet connection has completed (no
provider handle or no recorded sub-account address) issues no provider
request and reports the connect-wallet-first message. -/
theorem mintBeforeConnectFailsC4 (w : WalletState) (enc : String → String)
    (accounts : List String) (image : StoredImage)
    (h : w.provider = false ∨ w.subAccountAddress = "") :
    (mintNFT w enc accounts image).requests = [] ∧
    (mintNFT w enc accounts image).status = "Please connect wallet first" := by
  rcases h with h | h <;> simp [mintNFT, h]

/-- C4 witness: a concrete mint attempt with no provider handle. -/
theorem mintBeforeConnectFailsC4_witness :
    (mintNFT { provider := false, subAccountAddress := "" } (fun s => s) [] recA).requests = [] ∧
    (mintNFT { provider := false, subAccountAddress := "" } (fun s => s) [] recA).status =
      "Please connect wallet first" :=
  mintBeforeConnectFailsC4 _ _ _ _ (Or.inl rfl)

/-- C9: with a configured credential, when the response is ok and
carries a content hash, the returned reference is the ipfs scheme
followed by that hash. -/
theorem uploadSchemeRefC9 (jwt : Option String) (resp : PinataResponse) (h : String)
    (hjwt : truthy jwt = true) (hok : resp.ok = true)
    (hh : resp.ipfsHash = some h) (hne : h ≠ "") :
    (uploadImageToPinata jwt resp).fetches = 1 ∧
    (uploadImageToPinata jwt resp).result = Except.ok ("ipfs://" ++ h) := by
  cases jwt with
  | none => simp [truthy] at hjwt
  | some s =>
    simp only [truthy, Bool.not_eq_true'] at hjwt
    simp [uploadImageToPinata, truthy, hjwt, hok, hh, hne]

/-- C9 witness: a concrete successful upload returns ipfs://QmA. -/
theorem uploadSchemeRefC9_witness :
    (uploadImageToPinata (some "jwt") respA).fetches = 1 ∧
    (uploadImageToPinata (some "jwt") respA).result = Except.ok ("ipfs://" ++ "QmA") :=
  uploadSchemeRefC9 (some "jwt") respA "QmA" rfl rfl rfl (by decide)

/-- C10: with no selected file, or a description that trims to empty,
storeImage issues no upload, leaves the stored list untouched and only
updates the status message. -/
theorem storeMissingInputNoEffectC10 (imageFile : Option String) (description : String)
    (jwt : Option String) (resp : PinataResponse) (t1 t2 : Nat) (st : Storage)
    (h : imageFile = none ∨ jsTrim description = "") :
    (storeImage imageFile description jwt resp t1 t2 st).storage = st ∧
    (storeImage imageFile description jwt resp t1 t2 st).fetches = 0 ∧
    (storeImage imageFile description jwt resp t1 t2 st).status =
      "Please select an image and add a description" := by
  rcases h with h | h <;> simp [storeImage, h]

/-- C10 witness: an all-whitespace description at a concrete input. -/
theorem storeMissingInputNoEffectC10_witness :
    (storeImage (some "a.png") "   " (some "jwt") respA 3 4 none).storage = none ∧
    (storeImage (some "a.png") "   " (some "jwt") respA 3 4 none).fetches = 0 ∧
    (storeImage (some "a.png") "   " (some "jwt") respA 3 4 none).status =
      "Please select an image and add a description" :=
  storeMissingInputNoEffectC10 _ _ _ _ _ _ _ (Or.inr (by decide))

/-! Helper lemmas. -/

/-- The empty pattern occurs in every string. -/
theorem strIncludes_empty (s : String) : strIncludes s "" = true := by
  show listContains [] s.data = true
  cases s.data with
  | nil => rfl
  | cons c t => simp [listContains, listPrefixOf]

/-- matchesSearch agrees with the case-insensitive substring test, also
for the empty search term. -/
theorem matchesSearch_eq_strIncludes (term : String) (r : StoredImage) :
    matchesSearch term r = strIncludes (jsToLower r.description) (jsToLower term) := by
  unfold matchesSearch
  by_cases h : term = ""
  · subst h
    simp [jsToLower, strIncludes_empty]
  · simp [h]

/-- Appending to a well-formed stored list prepends at the head. -/
theorem appendRecord_list (l : List StoredImage) (r : StoredImage) :
    appendRecord (some (RawValue.list l)) r = Except.ok (some (RawValue.list (r :: l))) := rfl

/-- A run of appends onto a well-formed stored list accumulates the new
records in reverse order in front. -/
theorem appendAll_list (rs : List StoredImage) :
    ∀ l : List StoredImage,
      appendAll (some (RawValue.list l)) rs =
        Except.ok (some (RawValue.list (rs.reverse ++ l))) := by
  induction rs with
  | nil => intro l; simp [appendAll]
  | cons r rs ih =>
    intro l
    simp only [appendAll, appendRecord, parseStored, ih (r :: l), List.reverse_cons,
      List.append_assoc, List.singleton_append]

/-- A nonempty run of appends from the empty store. -/
theorem appendAll_none (r : StoredImage) (rs : List StoredImage) :
    appendAll none (r :: rs) = Except.ok (some (RawValue.list (rs.reverse ++ [r]))) := by
  simp only [appendAll, appendRecord, appendAll_list rs [r]]

/-- The feed sort yields a list that is pairwise nonincreasing in
timestamp. -/
theorem sortByTimestampDesc_sorted (l : List StoredImage) :
    (sortByTimestampDesc l).Pairwise (fun a b => b.timestamp ≤ a.timestamp) := by
  unfold sortByTimestampDesc
  apply List.Pairwise.imp ?_ (List.sorted_mergeSort ?_ ?_ l)
  · intro a b h
    simpa using h
  · intro a b c hab hbc
    simp only [decide_eq_true_eq] at *
    omega
  · intro a b
    simp only [Bool.or_eq_true, decide_eq_true_eq]
    omega

/-- The feed sort is a permutation of its input. -/
theorem sortByTimestampDesc_perm (l : List StoredImage) :
    (sortByTimestampDesc l).Perm l :=
  List.mergeSort_perm l _

/-- C1: each append prepends the new record at the head of the list read
from storage and writes the whole list back, and after a sequence of
appends from an empty store the gallery read yields as many records as
were appended, ordered newest first by timestamp. -/
theorem appendThenReadNewestFirstC1 (rs : List StoredImage) :
    (∀ (l : List StoredImage) (r : StoredImage),
        appendRecord (some (RawValue.list l)) r = Except.ok (some (RawValue.list (r :: l)))) ∧
    (∀ r : StoredImage, appendRecord none r = Except.ok (some (RawValue.list [r]))) ∧
    ∃ st, appendAll none rs = Except.ok st ∧
      (loadImages st).length = rs.length ∧
      (loadImages st).Pairwise (fun a b => b.timestamp ≤ a.timestamp) := by
  refine ⟨fun l r => rfl, fun r => rfl, ?_⟩
  cases rs with
  | nil => exact ⟨none, rfl, rfl, List.Pairwise.nil⟩
  | cons r rs =>
    refine ⟨some (RawValue.list (rs.reverse ++ [r])), appendAll_none r rs, ?_, ?_⟩
    · show (sortByTimestampDesc (rs.reverse ++ [r])).length = (r :: rs).length
      rw [(sortByTimestampDesc_perm _).length_eq]
      simp
    · exact sortByTimestampDesc_sorted _

/-- C1 witness: two concrete appends read back as two records, newest
first. -/
theorem appendThenReadNewestFirstC1_witness :
    ∃ st, appendAll none [recA, recB] = Except.ok st ∧
      (loadImages st).length = [recA, recB].length ∧
      (loadImages st).Pairwise (fun a b => b.timestamp ≤ a.timestamp) :=
  (appendThenReadNewestFirstC1 [recA, recB]).2.2

/-- C5: the gallery filter returns exactly the records whose description
contains the search term as a case-insensitive substring, in their
original order: it is a sublist of the input, membership is
characterized by the substring test, a term matching no description
yields the empty list, and a term matching exactly one record yields
exactly that record. -/
theorem galleryFilterCharacterizationC5 (searchTerm : String)
    (images : List StoredImage) (r : StoredImage) :
    (filteredImages searchTerm images).Sublist images ∧
    (r ∈ filteredImages searchTerm images ↔
      r ∈ images ∧ strIncludes (jsToLower r.description) (jsToLower searchTerm) = true) ∧
    ((∀ x ∈ images, strIncludes (jsToLower x.description) (jsToLower searchTerm) = false) →
      filteredImages searchTerm images = []) ∧
    (images.countP (matchesSearch searchTerm) = 1 →
      strIncludes (jsToLower r.description) (jsToLower searchTerm) = true → r ∈ images →
      filteredImages searchTerm images = [r]) := by
  refine ⟨List.filter_sublist _, ?_, ?_, ?_⟩
  · rw [filteredImages, List.mem_filter, matchesSearch_eq_strIncludes]
  · intro hnone
    rw [filteredImages, List.filter_eq_nil_iff]
    intro x hx
    rw [matchesSearch_eq_strIncludes]
    simp [hnone x hx]
  · intro hcount hmatch hmem
    have hlen : (filteredImages searchTerm images).length = 1 := by
      rw [filteredImages, ← List.countP_eq_length_filter]
      exact hcount
    obtain ⟨a, ha⟩ := List.length_eq_one.mp hlen
    have hr : r ∈ filteredImages searchTerm images := by
      rw [filteredImages, List.mem_filter]
      exact ⟨hmem, by rw [matchesSearch_eq_strIncludes]; exact hmatch⟩
    rw [ha] at hr ⊢
    simp only [List.mem_singleton] at hr
    rw [hr]

/-- C5 witness: the term DOG matches exactly the beta dog record among
the two samples and the filter returns exactly that record. -/
theorem galleryFilterCharacterizationC5_witness :
    filteredImages "DOG" [recA, recB] = [recB] :=
  (galleryFilterCharacterizationC5 "DOG" [recA, recB] recB).2.2.2
    (by decide) (by decide) (by decide)

/-- C6 counterexample: a successful upload-and-store run whose two
Date.now() samples straddle a millisecond boundary (5, then 6) stores a
record whose id string is 5 while its timestamp rendered in decimal is
6: the id does not equal the createdAt value as a string. -/
theorem recordIdC6cex :
    (storeImage (some "photo.png") "cat pic" (some "jwt") respA 5 6 none).storage =
      some (RawValue.list [mkStoredImage 5 6 "ipfs://QmA" "cat pic"]) ∧
    (mkStoredImage 5 6 "ipfs://QmA" "cat pic").id ≠
      toString (mkStoredImage 5 6 "ipfs://QmA" "cat pic").timestamp :=
  ⟨rfl, by decide⟩

/-- C6 amended: the record id is the decimal rendering of the first
Date.now() sample, and it equals the rendering of the createdAt field
whenever the second sample returns the same millisecond. -/
theorem recordIdC6amended (t1 t2 : Nat) (url desc : String) (h : t1 = t2) :
    (mkStoredImage t1 t2 url desc).id = toString t1 ∧
    (mkStoredImage t1 t2 url desc).id =
      toString (mkStoredImage t1 t2 url desc).timestamp := by
  subst h
  exact ⟨rfl, rfl⟩

/-- C6 amended witness: both samples at millisecond 7. -/
theorem recordIdC6amended_witness :
    (mkStoredImage 7 7 "ipfs://QmA" "cat").id = toString (7 : Nat) ∧
    (mkStoredImage 7 7 "ipfs://QmA" "cat").id =
      toString (mkStoredImage 7 7 "ipfs://QmA" "cat").timestamp :=
  recordIdC6amended 7 7 "ipfs://QmA" "cat" rfl

/-- C8 counterexample: when the stored value is malformed JSON, the read
performed by append does not treat the store as empty: it propagates the
parse error, the write of a one-record list never happens, and the
storeImage run ends in a Storage failed status carrying the parse
error. -/
theorem malformedStorageC8cex :
    appendRecord (some (RawValue.malformed "Unexpected token u in JSON")) recA =
      Except.error "Unexpected token u in JSON" ∧
    appendRecord (some (RawValue.malformed "Unexpected token u in JSON")) recA ≠
      Except.ok (some (RawValue.list [recA])) ∧
    (storeImage (some "a.png") "first" (some "jwt") respA 7 7
        (some (RawValue.malformed "Unexpected token u in JSON"))).status =
      "Storage failed: Unexpected token u in JSON" :=
  ⟨rfl, by decide, rfl⟩

/-- C8 amended: a malformed stored value is treated as empty by the
gallery read, which yields the empty list; the read inside append
instead propagates the parse error, so the append fails and leaves the
stored value unchanged. -/
theorem malformedStorageC8amended (msg : String) (r : StoredImage)
    (file : Option String) (desc : String) (jwt : Option String)
    (resp : PinataResponse) (t1 t2 : Nat) :
    loadImages (some (RawValue.malformed msg)) = [] ∧
    appendRecord (some (RawValue.malformed msg)) r = Except.error msg ∧
    (storeImage file desc jwt resp t1 t2 (some (RawValue.malformed msg))).storage =
      some (RawValue.malformed msg) := by
  refine ⟨rfl, rfl, ?_⟩
  by_cases hif : (file.isNone || jsTrim desc == "") = true
  · simp [storeImage, hif]
  · cases hup : (uploadImageToPinata jwt resp).result with
    | error e => simp [storeImage, hif, hup]
    | ok url => simp [storeImage, hif, hup, appendRecord, parseStored]

/-- C8 amended witness: a concrete malformed store with a concrete
record and upload context. -/
theorem malformedStorageC8amended_witness :
    loadImages (some (RawValue.malformed "bad json")) = [] ∧
    appendRecord (some (RawValue.malformed "bad json")) recB = Except.error "bad json" ∧
    (storeImage (some "b.png") "second" (some "jwt") respB 8 8
        (some (RawValue.malformed "bad json"))).storage =
      some (RawValue.malformed "bad json") :=
  malformedStorageC8amended "bad json" recB (some "b.png") "second" (some "jwt") respB 8 8

/-- C7 counterexample: two successful store runs whose clock samples
fall in the same millisecond (1000) produce a session list whose two
records share the id string 1000, so an append does not preserve id
uniqueness. -/
theorem idsUniqueC7cex :
    (storeImage (some "b.png") "second" (some "jwt") respB 1000 1000
        (storeImage (some "a.png") "first" (some "jwt") respA 1000 1000 none).storage).storage =
      some (RawValue.list [mkStoredImage 1000 1000 "ipfs://QmB" "second",
        mkStoredImage 1000 1000 "ipfs://QmA" "first"]) ∧
    ¬ ([mkStoredImage 1000 1000 "ipfs://QmB" "second",
        mkStoredImage 1000 1000 "ipfs://QmA" "first"].map StoredImage.id).Nodup :=
  ⟨rfl, by decide⟩

/-- C2: with a connected provider and recorded sub-account address,
mintNFT first issues eth_accounts; unless the first listed account is
the sub-account address it submits nothing further, and otherwise it
submits exactly one wallet_sendCalls request whose payload carries the
chain id, the sub-account as sender, atomicRequired true, and a single
call to the NFT contract with zero value and the encoded single-argument
mintNFT call applied to the record content reference. -/
theorem mintSubmitsSingleAtomicCallC2 (w : WalletState) (enc : String → String)
    (accounts : List String) (image : StoredImage)
    (hp : w.provider = true) (hs : w.subAccountAddress ≠ "") :
    (mintNFT w enc accounts image).requests.head? = some RpcRequest.ethAccounts ∧
    (accounts.head? ≠ some w.subAccountAddress →
      (mintNFT w enc accounts image).requests = [RpcRequest.ethAccounts]) ∧
    (accounts.head? = some w.subAccountAddress →
      (mintNFT w enc accounts image).requests =
        [RpcRequest.ethAccounts,
          RpcRequest.walletSendCalls
            { version := "2.0"
              atomicRequired := true
              chainId := "0x14a34"
              fromAddr := w.subAccountAddress
              calls := [CallObj.mk NFT_CONTRACT_ADDRESS (enc image.image) "0x0"] }]) := by
  have hch : chainIdHex = "0x14a34" := rfl
  by_cases hacc : accounts.head? = some w.subAccountAddress
  · refine ⟨?_, fun hne => absurd hacc hne, fun _ => ?_⟩ <;>
      simp [mintNFT, hp, hs, hacc, hch]
  · refine ⟨?_, fun _ => ?_, fun heq => absurd heq hacc⟩ <;>
      simp [mintNFT, hp, hs, hacc]

/-- C2 witness: a connected wallet whose first account matches submits
the single encoded call. -/
theorem mintSubmitsSingleAtomicCallC2_witness :
    (mintNFT { provider := true, subAccountAddress := "0xsub" }
        (fun s => String.append "enc:" s) ["0xsub"] recA).requests.head? =
      some RpcRequest.ethAccounts ∧
    (["0xsub"].head? ≠ some ({ provider := true, subAccountAddress := "0xsub" } :
        WalletState).subAccountAddress →
      (mintNFT { provider := true, subAccountAddress := "0xsub" }
        (fun s => String.append "enc:" s) ["0xsub"] recA).requests =
          [RpcRequest.ethAccounts]) ∧
    (["0xsub"].head? = some ({ provider := true, subAccountAddress := "0xsub" } :
        WalletState).subAccountAddress →
      (mintNFT { provider := true, subAccountAddress := "0xsub" }
        (fun s => String.append "enc:" s) ["0xsub"] recA).requests =
        [RpcRequest.ethAccounts,
          RpcRequest.walletSendCalls
            { version := "2.0"
              atomicRequired := true
              chainId := "0x14a34"
              fromAddr := ({ provider := true, subAccountAddress := "0xsub" } :
                WalletState).subAccountAddress
              calls := [CallObj.mk NFT_CONTRACT_ADDRESS
                ((fun s => String.append "enc:" s) recA.image) "0x0"] }]) :=
  mintSubmitsSingleAtomicCallC2 { provider := true, subAccountAddress := "0xsub" }
    (fun s => String.append "enc:" s) ["0xsub"] recA rfl (by decide)

/-! Injectivity of the decimal rendering used for record ids. -/

/-- Numeric value of a decimal digit character. -/
def decVal (c : Char) : Nat := c.toNat - 48

/-- Parse a most-significant-first decimal digit list. -/
def parseDec (cs : List Char) : Nat :=
  cs.foldl (fun acc c => 10 * acc + decVal c) 0

/-- The digit accumulator of toDigitsCore only prepends. -/
theorem toDigitsCore_append : ∀ (fuel n : Nat) (ds : List Char),
    Nat.toDigitsCore 10 fuel n ds = Nat.toDigitsCore 10 fuel n [] ++ ds := by
  intro fuel
  induction fuel with
  | zero => intro n ds; simp [Nat.toDigitsCore]
  | succ f ih =>
    intro n ds
    simp only [Nat.toDigitsCore]
    by_cases h : n / 10 = 0
    · simp [h]
    · simp only [h, if_false]
      rw [ih (n / 10) (Nat.digitChar (n % 10) :: ds), ih (n / 10) [Nat.digitChar (n % 10)]]
      simp

/-- toDigitsCore does not depend on the fuel once it exceeds the
number. -/
theorem toDigitsCore_fuel (n : Nat) : ∀ (f1 f2 : Nat) (ds : List Char), n < f1 → n < f2 →
    Nat.toDigitsCore 10 f1 n ds = Nat.toDigitsCore 10 f2 n ds := by
  induction n using Nat.strong_induction_on with
  | _ n ih =>
    intro f1 f2 ds h1 h2
    cases f1 with
    | zero => omega
    | succ g1 =>
      cases f2 with
      | zero => omega
      | succ g2 =>
        simp only [Nat.toDigitsCore]
        by_cases h : n / 10 = 0
        · simp [h]
        · simp only [h, if_false]
          have h10 : 10 ≤ n := by
            rcases Nat.lt_or_ge n 10 with hlt | hge
            · exact absurd (Nat.div_eq_of_lt hlt) h
            · exact hge
          have hdiv : n / 10 < n := Nat.div_lt_self (by omega) (by omega)
          exact ih (n / 10) hdiv g1 g2 _ (by omega) (by omega)

/-- Parsing a decimal digit character recovers its value. -/
theorem decVal_digitChar (n : Nat) (h : n < 10) : decVal (Nat.digitChar n) = n := by
  interval_cases n <;> rfl

/-- Parsing after appending one digit. -/
theorem parseDec_append (xs : List Char) (c : Char) :
    parseDec (xs ++ [c]) = 10 * parseDec xs + decVal c := by
  simp [parseDec, List.foldl_append]

/-- The decimal rendering of a natural number parses back to it. -/
theorem parseDec_toDigits (n : Nat) : parseDec (Nat.toDigits 10 n) = n := by
  induction n using Nat.strong_induction_on with
  | _ n ih =>
    show parseDec (Nat.toDigitsCore 10 (n + 1) n []) = n
    simp only [Nat.toDigitsCore]
    by_cases h : n / 10 = 0
    · have hn : n < 10 := by omega
      simp only [h, if_true]
      have : parseDec [Nat.digitChar (n % 10)] = decVal (Nat.digitChar (n % 10)) := by
        simp [parseDec]
      rw [this, decVal_digitChar _ (Nat.mod_lt _ (by omega))]
      omega
    · simp only [h, if_false]
      rw [toDigitsCore_append]
      have hdiv : n / 10 < n := Nat.div_lt_self (by omega) (by omega)
      have hfuel : Nat.toDigitsCore 10 n (n / 10) [] = Nat.toDigits 10 (n / 10) := by
        show _ = Nat.toDigitsCore 10 (n / 10 + 1) (n / 10) []
        exact toDigitsCore_fuel (n / 10) n (n / 10 + 1) [] (by omega) (by omega)
      rw [hfuel, parseDec_append, ih (n / 10) hdiv,
        decVal_digitChar _ (Nat.mod_lt _ (by omega))]
      omega

/-- The decimal rendering of natural numbers is injective. -/
theorem natRepr_inj (m n : Nat) (h : Nat.repr m = Nat.repr n) : m = n := by
  have hd : Nat.toDigits 10 m = Nat.toDigits 10 n := by
    have hdata := congrArg String.data h
    simpa [Nat.repr, List.asString] using hdata
  calc m = parseDec (Nat.toDigits 10 m) := (parseDec_toDigits m).symm
    _ = parseDec (Nat.toDigits 10 n) := by rw [hd]
    _ = n := parseDec_toDigits n

/-- Appending records with pairwise distinct ids from the empty store
succeeds and the gallery read shows pairwise distinct ids. -/
theorem appendAll_ids_nodup (recs : List StoredImage)
    (h : (recs.map StoredImage.id).Nodup) :
    ∃ st, appendAll none recs = Except.ok st ∧
      ((loadImages st).map StoredImage.id).Nodup := by
  cases recs with
  | nil => exact ⟨none, rfl, by simp [loadImages]⟩
  | cons r rs =>
    refine ⟨some (RawValue.list (rs.reverse ++ [r])), appendAll_none r rs, ?_⟩
    show ((sortByTimestampDesc (rs.reverse ++ [r])).map StoredImage.id).Nodup
    have hperm : ((sortByTimestampDesc (rs.reverse ++ [r])).map StoredImage.id).Perm
        ((rs.reverse ++ [r]).map StoredImage.id) :=
      (sortByTimestampDesc_perm _).map _
    have hperm2 : (rs.reverse ++ [r]).Perm (r :: rs) :=
      ((List.reverse_perm rs).append_right [r]).trans (List.perm_append_singleton r rs)
    exact hperm.nodup_iff.mpr ((hperm2.map StoredImage.id).nodup_iff.mpr h)

/-- C7 amended: a session whose appends sample pairwise distinct clock
milliseconds for their ids yields a list whose record ids are pairwise
distinct; the counterexample shows the hypothesis is necessary when two
appends share a millisecond. -/
theorem idsUniqueC7amended (params : List (Nat × Nat × String × String))
    (h : (params.map fun q => q.1).Pairwise (fun a b => a ≠ b)) :
    ∃ st,
      appendAll none (params.map fun q => mkStoredImage q.1 q.2.1 q.2.2.1 q.2.2.2) =
        Except.ok st ∧
      ((loadImages st).map StoredImage.id).Nodup := by
  apply appendAll_ids_nodup
  have hids : (params.map fun q => mkStoredImage q.1 q.2.1 q.2.2.1 q.2.2.2).map StoredImage.id
      = (params.map fun q => q.1).map (fun n : Nat => toString n) := by
    simp [List.map_map, mkStoredImage, Function.comp]
  rw [hids]
  refine List.Nodup.map ?_ h
  intro a b hab
  exact natRepr_inj a b hab

/-- C7 amended witness: two appends at distinct milliseconds. -/
theorem idsUniqueC7amended_witness :
    ∃ st,
      appendAll none ([((1 : Nat), (1 : Nat), "ipfs://QmA", "first"),
          ((2 : Nat), (2 : Nat), "ipfs://QmB", "second")].map
            fun q => mkStoredImage q.1 q.2.1 q.2.2.1 q.2.2.2) =
        Except.ok st ∧
      ((loadImages st).map StoredImage.id).Nodup :=
  idsUniqueC7amended
    [((1 : Nat), (1 : Nat), "ipfs://QmA", "first"),
      ((2 : Nat), (2 : Nat), "ipfs://QmB", "second")] (by decide)

end SocialNFT
